import Mathlib

/-!
Verification of the WHOOP CLI client (scripts/whoop_auth.py, src/secret_store.py).

The Python data values handled by the scripts are JSON documents (decoded by
json.load / response.json()), modelled by the `Json` inductive below.  Python
`None` (absent key or JSON null) is modelled by `Json.null`; numbers are
modelled as integers (no claim depends on floats).  Dictionaries are modelled
as association lists with Python dict semantics: assignment replaces the value
in place for an existing key and appends for a new key, preserving insertion
order.
-/

inductive Json : Type
  | null : Json
  | bool : Bool → Json
  | num : Int → Json
  | str : String → Json
  | arr : List Json → Json
  | obj : List (String × Json) → Json

/-- Python truthiness of a decoded JSON value. -/
def truthy : Json → Bool
  | Json.null => false
  | Json.bool b => b
  | Json.num n => !(n == 0)
  | Json.str s => !(s == "")
  | Json.arr l => !l.isEmpty
  | Json.obj l => !l.isEmpty

/-- Whether a value is a Python str (isinstance(x, str)). -/
def Json.isStr : Json → Bool
  | Json.str _ => true
  | _ => false

/-- Whether a value is Python None (`x is None`). -/
def Json.isNull : Json → Bool
  | Json.null => true
  | _ => false

/-- Dictionary lookup: first entry with the given key (keys are unique in
decoded JSON documents). -/
def alist_get {α : Type} : List (String × α) → String → Option α
  | [], _ => none
  | (k2, v) :: rest, k => if k2 == k then some v else alist_get rest k

/-- dict.get(key, default). -/
def alist_getD {α : Type} (l : List (String × α)) (k : String) (d : α) : α :=
  match alist_get l k with
  | some v => v
  | none => d

/-- `key in dict`. -/
def contains_key {α : Type} (l : List (String × α)) (k : String) : Bool :=
  (alist_get l k).isSome

/-- dict assignment `d[k] = v`: replace in place if the key exists, else append. -/
def alist_set {α : Type} : List (String × α) → String → α → List (String × α)
  | [], k, v => [(k, v)]
  | (k2, w) :: rest, k, v =>
      if k2 == k then (k, v) :: rest else (k2, w) :: alist_set rest k v

/-- dict.get(key): Python returns None both for an absent key and for a stored
JSON null, so both collapse to `Json.null`. -/
def pyGetVal (flds : List (String × Json)) (k : String) : Json :=
  match alist_get flds k with
  | some v => v
  | none => Json.null

/-- Python `a or b` specialised to the `x or ""` / `x or default` idiom. -/
def py_or (a b : Json) : Json :=
  if truthy a then a else b

mutual
/-- Python str() of a decoded JSON value.  Containers are rendered with their
brackets and comma-separated elements (string quoting inside containers is not
reproduced; the scripts only ever use the rendering of non-string values for
cursor coercion and header formatting, where only the characters rendered for
atoms matter). -/
def pyStr : Json → String
  | Json.null => "None"
  | Json.bool true => "True"
  | Json.bool false => "False"
  | Json.num n => toString n
  | Json.str s => s
  | Json.arr l => "[" ++ pyStrList l ++ "]"
  | Json.obj l => "\x7b" ++ pyStrFields l ++ "\x7d"

def pyStrList : List Json → String
  | [] => ""
  | [x] => pyStr x
  | x :: xs => pyStr x ++ ", " ++ pyStrList xs

def pyStrFields : List (String × Json) → String
  | [] => ""
  | [(k, v)] => k ++ ": " ++ pyStr v
  | (k, v) :: xs => k ++ ": " ++ pyStr v ++ ", " ++ pyStrFields xs
end

/-- str.strip() leaves nothing: every character is whitespace (true for ""). -/
def is_blank (s : String) : Bool :=
  s.toList.all Char.isWhitespace

/-- Lexicographic comparison of strings by code point, Python `a <= b`. -/
def chars_le : List Char → List Char → Bool
  | [], _ => true
  | _ :: _, [] => false
  | a :: as, b :: bs => if a = b then chars_le as bs else decide (a < b)

/-- Lexicographic strict comparison by code point, Python `a < b`. -/
def chars_lt : List Char → List Char → Bool
  | [], [] => false
  | [], _ :: _ => true
  | _ :: _, [] => false
  | a :: as, b :: bs => if a = b then chars_lt as bs else decide (a < b)

def str_le (a b : String) : Bool := chars_le a.toList b.toList

def str_lt (a b : String) : Bool := chars_lt a.toList b.toList

/-- Python `c in s` for a single character. -/
def py_in_str (c : Char) (s : String) : Bool := s.toList.contains c

/-- str.split on a one-character separator, on the character list. -/
def split_chars (sep : Char) : List Char → List (List Char)
  | [] => [[]]
  | c :: cs =>
      let r := split_chars sep cs
      if c = sep then [] :: r
      else
        match r with
        | [] => [[c]]
        | g :: gs => (c :: g) :: gs

/-- str.split("-")-style splitting of a string on one character. -/
def split_on_char (sep : Char) (s : String) : List String :=
  (split_chars sep s.toList).map (fun cs => String.mk cs)

/-- Python error outcomes surfaced by the scripts: ValueError / TypeError /
AttributeError raised by the store and filters, and SystemExit raised by the
CLI helpers. -/
inductive PyErr : Type
  | valueError : PyErr
  | typeError : PyErr
  | attributeError : PyErr
  | systemExit : PyErr
deriving DecidableEq

/- ## Date handling (whoop_auth.py lines 480-526) -/

def is_ascii_digit (c : Char) : Bool :=
  decide ('0' ≤ c) && decide (c ≤ '9')

/-- Numeric value of an all-digit string. -/
def digits_val (s : String) : Nat :=
  s.toList.foldl (fun a c => a * 10 + (c.toNat - 48)) 0

def is_leap (y : Nat) : Bool :=
  y % 4 == 0 && (y % 100 != 0 || y % 400 == 0)

def days_in_month (y m : Nat) : Nat :=
  if m == 2 then (if is_leap y then 29 else 28)
  else if m == 4 || m == 6 || m == 9 || m == 11 then 30
  else 31

/-- The %m field of strptime: one or two digits, value 1..12 (regex
1[0-2]|0[1-9]|[1-9]). -/
def month_field_ok (m : String) : Bool :=
  (m.length == 1 || m.length == 2) && m.toList.all is_ascii_digit &&
    decide (1 ≤ digits_val m) && decide (digits_val m ≤ 12)

/-- The %d field of strptime: one or two digits, value 1..31 (regex
3[01]|[12]\d|0[1-9]|[1-9]). -/
def day_field_ok (d : String) : Bool :=
  (d.length == 1 || d.length == 2) && d.toList.all is_ascii_digit &&
    decide (1 ≤ digits_val d) && decide (digits_val d ≤ 31)

/-- validate_date_format: datetime.strptime(date_str, "%Y-%m-%d") succeeds.
The %Y field is exactly four digits; the datetime constructor then requires
year >= 1 and the day to exist in the month. -/
def validate_date_format (s : String) : Bool :=
  match split_on_char '-' s with
  | [y, m, d] =>
      (y.length == 4) && y.toList.all is_ascii_digit &&
        month_field_ok m && day_field_ok d &&
        decide (1 ≤ digits_val y) &&
        decide (digits_val d ≤ days_in_month (digits_val y) (digits_val m))
  | _ => false

inductive DateErr : Type
  | invalidDateFormat : DateErr
deriving DecidableEq

/-- format_date_for_api (whoop_auth.py lines 496-526). -/
def format_date_for_api (dateStr : Option String) (isEnd : Bool) :
    Except DateErr (Option String) :=
  match dateStr with
  | none => Except.ok none
  | some s =>
      if s == "" then Except.ok none
      else if py_in_str 'T' s then Except.ok (some s)
      else if validate_date_format s = false then Except.error DateErr.invalidDateFormat
      else if isEnd then Except.ok (some (s ++ "T23:59:59.999Z"))
      else Except.ok (some (s ++ "T00:00:00.000Z"))

/-- The class of dates named by claim C7: strict zero-padded YYYY-MM-DD that
denotes a real calendar date (four-digit year at least 1, two-digit month
01..12, two-digit day valid in that month). -/
def c7_strict_calendar_date (s : String) : Bool :=
  match split_on_char '-' s with
  | [y, m, d] =>
      (y.length == 4) && y.toList.all is_ascii_digit &&
        (m.length == 2) && m.toList.all is_ascii_digit &&
        (d.length == 2) && d.toList.all is_ascii_digit &&
        decide (1 ≤ digits_val y) && decide (1 ≤ digits_val m) &&
        decide (digits_val m ≤ 12) && decide (1 ≤ digits_val d) &&
        decide (digits_val d ≤ days_in_month (digits_val y) (digits_val m))
  | _ => false

/- ## Client-side record filters (whoop_auth.py lines 529-592) -/

/-- Body of the filtering loop of filter_records_by_start_date.  A mapping is
kept when its start field is a truthy value lexicographically at least the
bound; a truthy non-string start raises TypeError at the comparison
`record_start >= start`; falsy starts (missing, null, empty string, zero)
short-circuit the conjunction and the record is dropped; non-mappings pass
through. -/
def frbsd_go (s : String) : List Json → Except PyErr (List Json)
  | [] => Except.ok []
  | r :: rest =>
      match r with
      | Json.obj flds =>
          match pyGetVal flds "start" with
          | Json.str s2 =>
              if !(s2 == "") && str_le s s2 then
                (frbsd_go s rest).map (fun l => r :: l)
              else frbsd_go s rest
          | v => if truthy v then Except.error PyErr.typeError else frbsd_go s rest
      | _ => (frbsd_go s rest).map (fun l => r :: l)

/-- filter_records_by_start_date (whoop_auth.py lines 529-558). -/
def filter_records_by_start_date (records : List Json) (start : Option String) :
    Except PyErr (List Json) :=
  match start with
  | none => Except.ok records
  | some s =>
      if s == "" then Except.ok records
      else if records.isEmpty then Except.ok records
      else frbsd_go s records

/-- Body of the filtering loop of filter_ongoing_records_before_date.  A
mapping is skipped when its start is a truthy value strictly below the bound
AND its end is None; a truthy non-string start raises TypeError at the
comparison `record_start < start`. -/
def forbd_go (s : String) : List Json → Except PyErr (List Json)
  | [] => Except.ok []
  | r :: rest =>
      match r with
      | Json.obj flds =>
          match pyGetVal flds "start" with
          | Json.str s2 =>
              if !(s2 == "") && str_lt s2 s && (pyGetVal flds "end").isNull then
                forbd_go s rest
              else (forbd_go s rest).map (fun l => r :: l)
          | v =>
              if truthy v then Except.error PyErr.typeError
              else (forbd_go s rest).map (fun l => r :: l)
      | _ => (forbd_go s rest).map (fun l => r :: l)

/-- filter_ongoing_records_before_date (whoop_auth.py lines 561-592). -/
def filter_ongoing_records_before_date (records : List Json) (s : String) :
    Except PyErr (List Json) :=
  if records.isEmpty then Except.ok records else forbd_go s records

/-- The keep-predicate of the amended claim C4: a record survives the filter
exactly when it is a non-mapping, or a mapping whose start field is a
non-empty string lexicographically at least the bound. -/
def c4_claim_keep (startIso : String) (r : Json) : Bool :=
  match r with
  | Json.obj flds =>
      match pyGetVal flds "start" with
      | Json.str s2 => !(s2 == "") && str_le startIso s2
      | _ => false
  | _ => true

/-- Well-typedness of start fields assumed by claim C4: every mapping record
carries a start that is absent, null, or a string (or otherwise falsy), so
that no comparison raises TypeError. -/
def c4_start_ok (r : Json) : Bool :=
  match r with
  | Json.obj flds =>
      match pyGetVal flds "start" with
      | Json.str _ => true
      | v => !truthy v
  | _ => true

/- ## Paginated aggregator (whoop_auth.py lines 680-802) -/

/-- Record extraction from one page (whoop_auth.py lines 741-752): a dict with
a records key contributes the value when it is a list and nothing otherwise;
a bare list contributes its entries; any other payload is appended whole. -/
def extract_page_records (page : Json) : List Json :=
  match page with
  | Json.obj flds =>
      if contains_key flds "records" then
        match alist_get flds "records" with
        | some (Json.arr l) => l
        | _ => []
      else [page]
  | Json.arr l => l
  | _ => [page]

/-- Metadata captured from the first page (whoop_auth.py lines 736-739). -/
def extract_metadata (page : Json) : List (String × Json) :=
  match page with
  | Json.obj flds => flds.filter (fun p => !(p.1 == "records") && !(p.1 == "next_token"))
  | _ => []

/-- Cursor extraction (whoop_auth.py lines 760-765): page_data.get("next_token")
for a dict (None for a non-dict), then truthy non-strings coerced with str(). -/
def extract_next_token (page : Json) : Json :=
  match page with
  | Json.obj flds =>
      let nt := pyGetVal flds "next_token"
      if truthy nt && !nt.isStr then Json.str (pyStr nt) else nt
  | _ => Json.null

/-- The loop break test (whoop_auth.py line 774):
`not next_token or (isinstance(next_token, str) and not next_token.strip())`. -/
def pagination_stop (nt : Json) : Bool :=
  !truthy nt ||
    (match nt with
     | Json.str s => is_blank s
     | _ => false)

/-- The aggregation loop of _fetch_all_pages, fuel-indexed.  The page fetcher
is an oracle indexed by the page number and the current cursor, threading the
token pair exactly as the source does; fixed pass-through arguments (limit,
start, end) are part of the fetcher closure.  `none` means the fuel ran out
before the loop broke. -/
def fetch_all_pages_go (fetcher : Nat → Json → String → String → Json × String × String) :
    Nat → Nat → Json → String → String → List Json → List (String × Json) →
    Option (Json × String × String × Nat)
  | 0, _, _, _, _, _, _ => none
  | fuel + 1, pageCount, cursor, tok, rtok, acc, meta =>
      let pc := pageCount + 1
      let pr := fetcher pc cursor tok rtok
      let page := pr.1
      let meta2 := if pc == 1 then extract_metadata page else meta
      let acc2 := acc ++ extract_page_records page
      let nt := extract_next_token page
      if pagination_stop nt then
        some (Json.obj (meta2 ++ [("records", Json.arr acc2), ("next_token", Json.null)]),
              pr.2.1, pr.2.2, pc)
      else fetch_all_pages_go fetcher fuel pc nt pr.2.1 pr.2.2 acc2 meta2

/-- _fetch_all_pages (whoop_auth.py lines 680-802), fuel-indexed. -/
def fetch_all_pages (fuel : Nat)
    (fetcher : Nat → Json → String → String → Json × String × String)
    (access refresh : String) : Option (Json × String × String × Nat) :=
  fetch_all_pages_go fetcher fuel 0 Json.null access refresh [] []

/-- The raw cursor of a page as named by claim C5: missing (non-dict page or
absent key) and null collapse to none. -/
def raw_cursor (page : Json) : Option Json :=
  match page with
  | Json.obj flds =>
      match alist_get flds "next_token" with
      | some Json.null => none
      | o => o
  | _ => none

/-- The termination test as worded by claim C5: stop when the cursor is null
or missing, or — after coercing a truthy non-string to its str() rendering —
an empty or whitespace-only string, or an empty (Python-falsy) value. -/
def claim_cursor_terminal (page : Json) : Bool :=
  match raw_cursor page with
  | none => true
  | some v =>
      let v2 := if truthy v && !v.isStr then Json.str (pyStr v) else v
      match v2 with
      | Json.str s => is_blank s
      | w => !truthy w

/-- The extraction rule claimed by C3 (before amendment): a mapping with a
list-typed records value yields that list, a bare list yields its entries, and
every other payload — including a mapping whose records value is not a list —
is appended whole as one opaque record. -/
def c3_claim_extract (page : Json) : List Json :=
  match page with
  | Json.obj flds =>
      match alist_get flds "records" with
      | some (Json.arr l) => l
      | some _ => [page]
      | none => [page]
  | Json.arr l => l
  | _ => [page]

/-- The extraction rule of the amended claim C3: as claimed, except that a
mapping whose records key holds a non-list value contributes no records at
all. -/
def c3_amended_extract (page : Json) : List Json :=
  match page with
  | Json.obj flds =>
      match alist_get flds "records" with
      | some (Json.arr l) => l
      | some _ => []
      | none => [page]
  | Json.arr l => l
  | _ => [page]

/- ## Authenticated request executor (whoop_auth.py lines 114-236) -/

structure HttpResponse : Type where
  status : Nat
  body : Json

/-- The request-invariant arguments of authenticated_request: everything that
is forwarded verbatim to requests.request on both attempts. -/
structure ReqParts : Type where
  method : String
  url : String
  params : List (String × Json)
  formData : List (String × Json)
  jsonData : Option Json

/-- One concrete HTTP request as issued by requests.request. -/
structure HttpRequest : Type where
  parts : ReqParts
  headers : List (String × String)

/-- The network oracle: `send n` is the response to the nth request issued by
authenticated_request, and the token endpoint answers the (at most one)
refresh POST with status `refreshStatus` and JSON object `refreshBody`. -/
structure AuthEnv : Type where
  send : Nat → HttpResponse
  refreshStatus : Nat
  refreshBody : List (String × Json)

/-- The failure modes of authenticated_request: the SystemExit raised when no
refresh token is available, the SystemExit raised when the refresh POST has an
error status, the SystemExit raised when the refresh body lacks a truthy
access token, and the requests.HTTPError raised by raise_for_status. -/
inductive AuthError : Type
  | exitMissingRefreshToken : AuthError
  | exitRefreshFailed : Nat → AuthError
  | exitNoAccessToken : AuthError
  | httpError : Nat → AuthError

/-- The observable outcome of one authenticated_request call: the returned
(response, access_token, refresh_token) triple or the raised error, together
with the list of HTTP requests issued and the number of refresh POSTs. -/
structure AuthTrace : Type where
  result : Except AuthError (HttpResponse × Json × Json)
  requests : List HttpRequest
  refreshCalls : Nat

/-- requests.Response.raise_for_status raises exactly for 4xx and 5xx. -/
def raise_for_status (status : Nat) : Bool :=
  decide (400 ≤ status) && decide (status < 600)

/-- refresh_access_token (whoop_auth.py lines 114-130): POST to the token
endpoint, raise for an error status, return the decoded JSON body. -/
def refresh_access_token (env : AuthEnv) : Except Nat (List (String × Json)) :=
  if raise_for_status env.refreshStatus then Except.error env.refreshStatus
  else Except.ok env.refreshBody

/-- authenticated_request (whoop_auth.py lines 133-236). -/
def authenticated_request (env : AuthEnv) (rp : ReqParts)
    (headers0 : List (String × String)) (access refresh : String) : AuthTrace :=
  let hdrs1 := alist_set headers0 "Authorization" ("Bearer " ++ access)
  let req1 : HttpRequest := ⟨rp, hdrs1⟩
  let resp1 := env.send 0
  if resp1.status == 401 then
    if refresh == "" then ⟨Except.error AuthError.exitMissingRefreshToken, [req1], 0⟩
    else
      match refresh_access_token env with
      | Except.error st => ⟨Except.error (AuthError.exitRefreshFailed st), [req1], 1⟩
      | Except.ok tokens =>
          let newAccess := alist_getD tokens "access_token" (Json.str "")
          let newRefresh := alist_getD tokens "refresh_token" (Json.str refresh)
          if truthy newAccess = false then
            ⟨Except.error AuthError.exitNoAccessToken, [req1], 1⟩
          else
            let hdrs2 := alist_set hdrs1 "Authorization" ("Bearer " ++ pyStr newAccess)
            let req2 : HttpRequest := ⟨rp, hdrs2⟩
            let resp2 := env.send 1
            if raise_for_status resp2.status then
              ⟨Except.error (AuthError.httpError resp2.status), [req1, req2], 1⟩
            else ⟨Except.ok (resp2, newAccess, newRefresh), [req1, req2], 1⟩
  else
    if raise_for_status resp1.status then
      ⟨Except.error (AuthError.httpError resp1.status), [req1], 0⟩
    else ⟨Except.ok (resp1, Json.str access, Json.str refresh), [req1], 0⟩

/- ## Credential store (src/secret_store.py) -/

/-- A decoded secrets.json document. -/
def Doc : Type := List (String × Json)

def NUM_BANDS : Int := 10

/-- Band ids 1..10 in iteration order (range(1, NUM_BANDS + 1)). -/
def band_ids : List Int := (List.range 10).map (fun i => (i : Int) + 1)

/-- The document written by ensure_secrets_file on first run. -/
def initial_secrets : Doc :=
  [("client_id", Json.str ""), ("client_secret", Json.str "")] ++
    band_ids.map (fun b =>
      (toString b, Json.obj [("access_token", Json.str ""), ("refresh_token", Json.str "")]))

/-- load_secrets: create the file with the initial structure when absent, then
read the whole document.  The state is the secrets file (`none` = absent). -/
def load_secrets (st : Option Doc) : Doc × Option Doc :=
  match st with
  | none => (initial_secrets, some initial_secrets)
  | some d => (d, some d)

/-- get_client_credentials (secret_store.py lines 43-52). -/
def get_client_credentials (st : Option Doc) : (Json × Json) × Option Doc :=
  let p := load_secrets st
  ((py_or (pyGetVal p.1 "client_id") (Json.str ""),
    py_or (pyGetVal p.1 "client_secret") (Json.str "")), p.2)

/-- get_band_tokens (secret_store.py lines 55-78): validate the range, load,
self-heal an absent band key with an empty record (persisting the heal), then
read the two token fields with an `or ""` default.  Reading a non-dict band
value raises AttributeError at `.get`. -/
def get_band_tokens (bandId : Int) (st : Option Doc) :
    Except PyErr ((Json × Json) × Option Doc) :=
  if decide (1 ≤ bandId) && decide (bandId ≤ NUM_BANDS) then
    let p := load_secrets st
    let key := toString bandId
    let healed :=
      if contains_key p.1 key then (p.1, p.2)
      else
        let h := alist_set p.1 key
          (Json.obj [("access_token", Json.str ""), ("refresh_token", Json.str "")])
        (h, some h)
    match alist_getD healed.1 key (Json.obj []) with
    | Json.obj flds =>
        Except.ok ((py_or (pyGetVal flds "access_token") (Json.str ""),
                    py_or (pyGetVal flds "refresh_token") (Json.str "")), healed.2)
    | _ => Except.error PyErr.attributeError
  else Except.error PyErr.valueError

/-- save_band_tokens (secret_store.py lines 81-106): validate the range, load,
insert an empty dict for an absent band key, set the two token fields on the
band record, and write the whole document back.  Item assignment on a
non-dict band value raises TypeError. -/
def save_band_tokens (bandId : Int) (access refresh : String) (st : Option Doc) :
    Except PyErr (Option Doc) :=
  if decide (1 ≤ bandId) && decide (bandId ≤ NUM_BANDS) then
    let p := load_secrets st
    let key := toString bandId
    let secrets2 := if contains_key p.1 key then p.1 else alist_set p.1 key (Json.obj [])
    match alist_getD secrets2 key (Json.obj []) with
    | Json.obj flds =>
        let flds2 := alist_set (alist_set flds "access_token" (Json.str access))
          "refresh_token" (Json.str refresh)
        Except.ok (some (alist_set secrets2 key (Json.obj flds2)))
    | _ => Except.error PyErr.typeError
  else Except.error PyErr.valueError

/- ## Daily compliance check (whoop_auth.py lines 891-993) -/

/-- One data_fetcher call as seen by the compliance loop: it returns the
decoded page and the (possibly refreshed) token pair, raises SystemExit on an
auth failure, or raises some other exception. -/
inductive FetchOutcome : Type
  | ok : Json → String → String → FetchOutcome
  | systemExit : FetchOutcome
  | exc : FetchOutcome

/-- The network oracle of the compliance check, indexed by the number of
data_fetcher calls issued so far. -/
structure ComplianceEnv : Type where
  fetch : Nat → FetchOutcome

/-- The endpoints scanned per band (whoop_auth.py lines 921-925). -/
def compliance_endpoints : List String := ["sleep", "cycle", "recovery"]

/-- Record extraction inside the compliance loop (whoop_auth.py lines
962-966): unlike the aggregator there is no opaque-record fallback. -/
def extract_compliance_records (data : Json) : List Json :=
  match data with
  | Json.obj flds =>
      if contains_key flds "records" then
        match alist_get flds "records" with
        | some (Json.arr l) => l
        | _ => []
      else []
  | Json.arr l => l
  | _ => []

/-- `Json.str s` equality against a stored token value, modelling the Python
`new != current` comparison (a string never equals a non-string). -/
def json_eq_str (j : Json) (s : String) : Bool :=
  match j with
  | Json.str t => t == s
  | _ => false

/-- The try-block body for one endpoint of one band (whoop_auth.py lines
943-981): fetch, persist refreshed tokens, extract and filter records, and
report whether the endpoint is marked failed.  Any exception inside the body
is caught and marks the endpoint failed, leaving the store as it was at the
point of the raise. -/
def endpoint_step (res : FetchOutcome) (startD : String) (band : Int)
    (curA curR : Json) (st : Option Doc) : Bool × Json × Json × Option Doc :=
  match res with
  | FetchOutcome.systemExit => (true, curA, curR, st)
  | FetchOutcome.exc => (true, curA, curR, st)
  | FetchOutcome.ok data na nr =>
      if !json_eq_str curA na || !json_eq_str curR nr then
        match save_band_tokens band na nr st with
        | Except.error _ => (true, Json.str na, Json.str nr, st)
        | Except.ok st2 =>
            match filter_ongoing_records_before_date (extract_compliance_records data) startD with
            | Except.error _ => (true, Json.str na, Json.str nr, st2)
            | Except.ok recs => (recs.isEmpty, Json.str na, Json.str nr, st2)
      else
        match filter_ongoing_records_before_date (extract_compliance_records data) startD with
        | Except.error _ => (true, curA, curR, st)
        | Except.ok recs => (recs.isEmpty, curA, curR, st)

/-- The per-band endpoint loop, threading the fetch-call counter, the current
token pair, and the store; returns the names of the failed endpoints in scan
order. -/
def band_endpoints_loop (env : ComplianceEnv) (startD : String) (band : Int) :
    List String → Nat → Json → Json → Option Doc →
    List String × Option Doc × Nat
  | [], calls, _, _, st => ([], st, calls)
  | ep :: rest, calls, curA, curR, st =>
      let s := endpoint_step (env.fetch calls) startD band curA curR st
      let r := band_endpoints_loop env startD band rest (calls + 1) s.2.1 s.2.2.1 s.2.2.2
      ((if s.1 then ep :: r.1 else r.1), r.2)

/-- The per-band loop of run_daily_compliance_check (whoop_auth.py lines
929-987): read the band tokens (self-healing the store), mark all three
endpoints failed without any fetch when either token is falsy, otherwise scan
the endpoints. -/
def compliance_bands_loop (env : ComplianceEnv) (startD : String) :
    List Int → Option Doc → Nat →
    Except PyErr (List (String × List String) × Option Doc × Nat)
  | [], st, calls => Except.ok ([], st, calls)
  | b :: rest, st, calls =>
      match get_band_tokens b st with
      | Except.error e => Except.error e
      | Except.ok (tk, st1) =>
          if !truthy tk.1 || !truthy tk.2 then
            match compliance_bands_loop env startD rest st1 calls with
            | Except.error e => Except.error e
            | Except.ok (fs, st2, calls2) =>
                Except.ok ((toString b, ["sleep", "cycle", "recovery"]) :: fs, st2, calls2)
          else
            let r := band_endpoints_loop env startD b compliance_endpoints calls tk.1 tk.2 st1
            match compliance_bands_loop env startD rest r.2.1 r.2.2 with
            | Except.error e => Except.error e
            | Except.ok (fs, st2, calls2) =>
                Except.ok ((if r.1.isEmpty then fs else (toString b, r.1) :: fs), st2, calls2)

/-- run_daily_compliance_check (whoop_auth.py lines 891-993): validate the
date, build the day range, read the client credentials (SystemExit when
either is falsy), then scan all bands; the result is the failures mapping in
band order together with the final store state and the number of data_fetcher
calls issued. -/
def run_daily_compliance_check (env : ComplianceEnv) (dateStr : String)
    (st : Option Doc) :
    Except PyErr (List (String × List String) × Option Doc × Nat) :=
  if validate_date_format dateStr = false then Except.error PyErr.systemExit
  else
    let startD := dateStr ++ "T00:00:00.000Z"
    let creds := get_client_credentials st
    if !truthy creds.1.1 || !truthy creds.1.2 then Except.error PyErr.systemExit
    else compliance_bands_loop env startD band_ids creds.2 0

/-- The hypothesis of claim C9 on one band key of a document: the band entry
is absent (the store self-heals it to empty tokens), or is a record whose
access or refresh token is falsy (absent, null, or empty). -/
def band_unauth (doc : Doc) (key : String) : Bool :=
  match alist_get doc key with
  | none => true
  | some (Json.obj flds) =>
      !truthy (pyGetVal flds "access_token") || !truthy (pyGetVal flds "refresh_token")
  | some _ => false

/- ## Association-list lemmas -/

theorem alist_get_set_same {α : Type} (l : List (String × α)) (k : String) (v : α) :
    alist_get (alist_set l k v) k = some v := by
  induction l with
  | nil => simp [alist_set, alist_get]
  | cons p rest ih =>
      obtain ⟨k2, w⟩ := p
      cases h : (k2 == k) with
      | true => simp [alist_set, alist_get, h]
      | false => simp [alist_set, alist_get, h, ih]

theorem alist_get_set_other {α : Type} (l : List (String × α)) (k k2 : String) (v : α)
    (h : k2 ≠ k) : alist_get (alist_set l k v) k2 = alist_get l k2 := by
  have hk : (k == k2) = false := by
    cases hb : (k == k2) with
    | true => exact absurd (eq_of_beq hb).symm h
    | false => rfl
  induction l with
  | nil => simp [alist_set, alist_get, hk]
  | cons p rest ih =>
      obtain ⟨k3, w⟩ := p
      cases h3 : (k3 == k) with
      | true => simp [alist_set, alist_get, h3, eq_of_beq h3, hk]
      | false => simp [alist_set, alist_get, h3, ih]

theorem contains_key_set_same {α : Type} (l : List (String × α)) (k : String) (v : α) :
    contains_key (alist_set l k v) k = true := by
  simp [contains_key, alist_get_set_same]

theorem py_or_str_empty (a : String) :
    py_or (Json.str a) (Json.str "") = Json.str a := by
  cases h : (a == "") with
  | true => simp [py_or, truthy, h, eq_of_beq h]
  | false => simp [py_or, truthy, h]

theorem str_or_blank (x : String) : ((x == "") || is_blank x) = is_blank x := by
  cases h : (x == "") with
  | true =>
      have : x = "" := eq_of_beq h
      subst this
      simp [is_blank]
  | false => simp

/- ## Claims C1, C3, C4, C5, C7 -/

/-- A page oracle on which every fetched page carries the same cursor "a":
the repeated-cursor scenario of claim C1. -/
def c1_fetcher : Nat → Json → String → String → Json × String × String :=
  fun _ _ tok rtok =>
    (Json.obj [("records", Json.arr []), ("next_token", Json.str "a")], tok, rtok)

theorem c1_go_none (fuel : Nat) :
    ∀ (pc : Nat) (cursor : Json) (tok rtok : String) (acc : List Json)
      (meta : List (String × Json)),
      fetch_all_pages_go c1_fetcher fuel pc cursor tok rtok acc meta = none := by
  induction fuel with
  | zero => intros; rfl
  | succ n ih =>
      intro pc cursor tok rtok acc meta
      have hstop : pagination_stop (extract_next_token
          (Json.obj [("records", Json.arr []), ("next_token", Json.str "a")])) = false := rfl
      simp only [fetch_all_pages_go, c1_fetcher, hstop, Bool.false_eq_true, if_false]
      exact ih _ _ _ _ _ _

/-- C1: the claim demands that _fetch_all_pages terminate whenever the fetched
page repeats a cursor, but the source disabled its own repeated-cursor and
seen-cursor guards (whoop_auth.py lines 777-791 are commented out): against a
page oracle that always answers with cursor "a", the loop never breaks — no
fuel bound suffices, i.e. the aggregator loops forever.  The claim is the
stated intent (the guards exist in the source as disabled safety checks); the
code is the bug. -/
theorem C1_repeated_cursor_loops (fuel : Nat) (access refresh : String) :
    fetch_all_pages fuel c1_fetcher access refresh = none :=
  c1_go_none fuel 0 Json.null access refresh [] []

/-- C3 counterexample: a mapping whose records key holds the non-list value 5.
The source (whoop_auth.py line 745) extracts the empty list from such a page,
while the claim demands the whole page be appended as one opaque record. -/
theorem C3_counterexample :
    extract_page_records (Json.obj [("records", Json.num 5)]) = [] ∧
    c3_claim_extract (Json.obj [("records", Json.num 5)]) =
      [Json.obj [("records", Json.num 5)]] :=
  ⟨rfl, rfl⟩

/-- C3 (amended): record extraction from a page is: the value under the
records key when the page is a mapping with a list-typed records value; the
empty contribution when the page is a mapping whose records value is not a
list; the entries when the page is a bare list; and otherwise the whole page
as one opaque record.  Mappings without a records key fall into the opaque
case. -/
theorem C3_extract_amended (page : Json) :
    extract_page_records page = c3_amended_extract page := by
  cases page with
  | obj flds =>
      cases h : alist_get flds "records" with
      | none => simp [extract_page_records, c3_amended_extract, contains_key, h]
      | some v => cases v <;> simp [extract_page_records, c3_amended_extract, contains_key, h]
  | null => rfl
  | bool b => rfl
  | num n => rfl
  | str s => rfl
  | arr l => rfl

/-- C4 counterexample: a mapping record with no start field at all.  The
source drops it (filter_records_by_start_date returns the empty list), yet it
is not a mapping whose start field is lexicographically less than the bound —
its start field is absent (Python None) — contradicting the claim that ONLY
mappings with start below the bound are dropped. -/
theorem C4_counterexample :
    filter_records_by_start_date [Json.obj []] (some "2024-01-02T00:00:00Z") =
      Except.ok [] ∧
    pyGetVal ([] : List (String × Json)) "start" = Json.null :=
  ⟨rfl, rfl⟩

theorem frbsd_go_filter (start : String) :
    ∀ l : List Json, l.all c4_start_ok = true →
      frbsd_go start l = Except.ok (l.filter (c4_claim_keep start)) := by
  intro l
  induction l with
  | nil => intro _; rfl
  | cons r rest ih =>
      intro h
      rw [List.all_cons, Bool.and_eq_true] at h
      have hrest := ih h.2
      cases r with
      | obj flds =>
          have hr := h.1
          simp only [c4_start_ok] at hr
          cases hv : pyGetVal flds "start" with
          | str s2 =>
              cases hc : (!(s2 == "") && str_le start s2) with
              | true =>
                  simp [frbsd_go, hv, hc, hrest, List.filter, c4_claim_keep, Except.map]
              | false =>
                  simp [frbsd_go, hv, hc, hrest, List.filter, c4_claim_keep, Except.map]
          | null =>
              simp [frbsd_go, hv, hrest, List.filter, c4_claim_keep, truthy, Except.map]
          | bool b =>
              rw [hv] at hr
              cases b with
              | false =>
                  simp [frbsd_go, hv, hrest, List.filter, c4_claim_keep, truthy, Except.map]
              | true => simp [truthy] at hr
          | num n =>
              rw [hv] at hr
              have hn : n = 0 := by simpa [truthy] using hr
              subst hn
              simp [frbsd_go, hv, hrest, List.filter, c4_claim_keep, truthy, Except.map]
          | arr l2 =>
              rw [hv] at hr
              have he : l2.isEmpty = true := by simpa [truthy] using hr
              simp [frbsd_go, hv, hrest, List.filter, c4_claim_keep, truthy, he, Except.map]
          | obj l2 =>
              rw [hv] at hr
              have he : l2.isEmpty = true := by simpa [truthy] using hr
              simp [frbsd_go, hv, hrest, List.filter, c4_claim_keep, truthy, he, Except.map]
      | null => simp [frbsd_go, hrest, List.filter, c4_claim_keep, Except.map]
      | bool b => simp [frbsd_go, hrest, List.filter, c4_claim_keep, Except.map]
      | num n => simp [frbsd_go, hrest, List.filter, c4_claim_keep, Except.map]
      | str s => simp [frbsd_go, hrest, List.filter, c4_claim_keep, Except.map]
      | arr l2 => simp [frbsd_go, hrest, List.filter, c4_claim_keep, Except.map]

/-- C4 (amended): for a non-empty bound and records whose start fields are
never truthy non-strings (which would raise TypeError at the comparison),
filter_records_by_start_date keeps exactly the non-mapping entries and the
mappings whose start field is a non-empty string lexicographically at least
the bound; mappings whose start is missing, null, empty, or lexicographically
below the bound are dropped. -/
theorem C4_filter_amended (records : List Json) (start : String)
    (h1 : start ≠ "") (h2 : records.all c4_start_ok = true) :
    filter_records_by_start_date records (some start) =
      Except.ok (records.filter (c4_claim_keep start)) := by
  have hb : (start == "") = false := by
    cases hx : (start == "") with
    | true => exact absurd (eq_of_beq hx) h1
    | false => rfl
  cases records with
  | nil => simp [filter_records_by_start_date, hb]
  | cons r rest =>
      simp only [filter_records_by_start_date, hb, Bool.false_eq_true, if_false,
        List.isEmpty_cons, if_false]
      exact frbsd_go_filter start (r :: rest) h2

/-- The concrete records of the specification example for C4. -/
def c4w_records : List Json :=
  [Json.obj [("start", Json.str "2024-01-01T10:00:00Z")],
   Json.obj [("start", Json.str "2024-01-02T10:00:00Z")]]

/-- Witness for the amended C4 at the specification example: only the record
starting on 2024-01-02 survives. -/
theorem C4_filter_amended_witness :
    filter_records_by_start_date c4w_records (some "2024-01-02T00:00:00Z") =
      Except.ok [Json.obj [("start", Json.str "2024-01-02T10:00:00Z")]] := by
  have h := C4_filter_amended c4w_records "2024-01-02T00:00:00Z" (by decide) rfl
  exact h.trans rfl

/-- C7 counterexample: the input "2024-1-5" is not a zero-padded YYYY-MM-DD
date and contains no time component, so the claim demands failure with
InvalidDateFormat; but strptime("%Y-%m-%d") accepts single-digit month and
day fields, so format_date_for_api succeeds and suffixes it. -/
theorem C7_counterexample :
    format_date_for_api (some "2024-1-5") false =
      Except.ok (some "2024-1-5T00:00:00.000Z") ∧
    c7_strict_calendar_date "2024-1-5" = false ∧
    py_in_str 'T' "2024-1-5" = false :=
  ⟨rfl, rfl, rfl⟩

/-- C7 (amended): for every non-empty input, format_date_for_api returns an
input containing "T" unchanged; maps a date accepted by the
strptime("%Y-%m-%d") parse — four-digit year at least 1, month 1-12 and day
valid in that month, each with optional zero padding — to the date suffixed
with T00:00:00.000Z (start) or T23:59:59.999Z (end); and fails with
InvalidDateFormat on everything else. -/
theorem C7_format_amended (s : String) (isEnd : Bool) (hne : s ≠ "") :
    (py_in_str 'T' s = true → format_date_for_api (some s) isEnd = Except.ok (some s)) ∧
    (py_in_str 'T' s = false → validate_date_format s = true →
        format_date_for_api (some s) isEnd =
          Except.ok (some (s ++ (if isEnd then "T23:59:59.999Z" else "T00:00:00.000Z")))) ∧
    (py_in_str 'T' s = false → validate_date_format s = false →
        format_date_for_api (some s) isEnd = Except.error DateErr.invalidDateFormat) := by
  have hb : (s == "") = false := by
    cases hx : (s == "") with
    | true => exact absurd (eq_of_beq hx) hne
    | false => rfl
  refine ⟨?_, ?_, ?_⟩
  · intro h1
    simp [format_date_for_api, hb, h1]
  · intro h1 h2
    cases isEnd <;> simp [format_date_for_api, hb, h1, h2]
  · intro h1 h2
    simp [format_date_for_api, hb, h1, h2]

/-- Witness for the amended C7 at the specification round-trip examples. -/
theorem C7_format_amended_witness :
    format_date_for_api (some "2024-01-15") false =
      Except.ok (some "2024-01-15T00:00:00.000Z") ∧
    format_date_for_api (some "2024-01-15") true =
      Except.ok (some "2024-01-15T23:59:59.999Z") ∧
    format_date_for_api (some "2024-01-15T08:00:00Z") false =
      Except.ok (some "2024-01-15T08:00:00Z") ∧
    format_date_for_api (some "2024-13-40") false =
      Except.error DateErr.invalidDateFormat := by
  refine ⟨?_, ?_, ?_, ?_⟩
  · exact ((C7_format_amended "2024-01-15" false (by decide)).2.1 rfl rfl).trans rfl
  · exact ((C7_format_amended "2024-01-15" true (by decide)).2.1 rfl rfl).trans rfl
  · exact (C7_format_amended "2024-01-15T08:00:00Z" false (by decide)).1 rfl
  · exact (C7_format_amended "2024-13-40" false (by decide)).2.2 rfl rfl

/-- The three-page oracle of claim C5: pages carrying cursors "a", "b", ""
with one record each; pages past the third (never requested if the claim
holds) carry a live cursor. -/
def c5_page : Nat → Json
  | 1 => Json.obj [("records", Json.arr [Json.str "r1"]), ("next_token", Json.str "a")]
  | 2 => Json.obj [("records", Json.arr [Json.str "r2"]), ("next_token", Json.str "b")]
  | 3 => Json.obj [("records", Json.arr [Json.str "r3"]), ("next_token", Json.str "")]
  | _ => Json.obj [("records", Json.arr [Json.str "bogus"]), ("next_token", Json.str "zz")]

def c5_fetcher : Nat → Json → String → String → Json × String × String :=
  fun pc _ tok rtok => (c5_page pc, tok, rtok)

/-- C5: the aggregator stops exactly when the extracted cursor is missing,
null, empty (Python-falsy), or whitespace-only, after coercing a truthy
non-string cursor to its str() rendering — the source break test agrees with
the claim test on every page; and on the cursor sequence ["a","b",""] it
fetches exactly 3 pages, aggregates their records in order, and stops. -/
theorem pagination_stop_str (x : String) : pagination_stop (Json.str x) = is_blank x := by
  simp only [pagination_stop, truthy, Bool.not_not]
  exact str_or_blank x

theorem C5_pagination_termination :
    (∀ page : Json, pagination_stop (extract_next_token page) = claim_cursor_terminal page) ∧
    fetch_all_pages 10 c5_fetcher "tokA" "tokR" =
      some (Json.obj [("records", Json.arr [Json.str "r1", Json.str "r2", Json.str "r3"]),
                      ("next_token", Json.null)], "tokA", "tokR", 3) := by
  constructor
  · intro page
    cases page with
    | obj flds =>
        cases h : alist_get flds "next_token" with
        | none =>
            simp [extract_next_token, claim_cursor_terminal, raw_cursor, pyGetVal, h,
              pagination_stop, truthy]
        | some v =>
            cases v with
            | null =>
                simp [extract_next_token, claim_cursor_terminal, raw_cursor, pyGetVal, h,
                  pagination_stop, truthy]
            | str s =>
                simp [extract_next_token, claim_cursor_terminal, raw_cursor, pyGetVal, h,
                  Json.isStr, pagination_stop_str]
            | bool b =>
                cases ht : truthy (Json.bool b) with
                | false =>
                    simp [extract_next_token, claim_cursor_terminal, raw_cursor, pyGetVal, h,
                      pagination_stop, Json.isStr, ht]
                | true =>
                    simp [extract_next_token, claim_cursor_terminal, raw_cursor, pyGetVal, h,
                      Json.isStr, ht, pagination_stop_str]
            | num n =>
                cases ht : truthy (Json.num n) with
                | false =>
                    simp [extract_next_token, claim_cursor_terminal, raw_cursor, pyGetVal, h,
                      pagination_stop, Json.isStr, ht]
                | true =>
                    simp [extract_next_token, claim_cursor_terminal, raw_cursor, pyGetVal, h,
                      Json.isStr, ht, pagination_stop_str]
            | arr l =>
                cases ht : truthy (Json.arr l) with
                | false =>
                    simp [extract_next_token, claim_cursor_terminal, raw_cursor, pyGetVal, h,
                      pagination_stop, Json.isStr, ht]
                | true =>
                    simp [extract_next_token, claim_cursor_terminal, raw_cursor, pyGetVal, h,
                      Json.isStr, ht, pagination_stop_str]
            | obj l =>
                cases ht : truthy (Json.obj l) with
                | false =>
                    simp [extract_next_token, claim_cursor_terminal, raw_cursor, pyGetVal, h,
                      pagination_stop, Json.isStr, ht]
                | true =>
                    simp [extract_next_token, claim_cursor_terminal, raw_cursor, pyGetVal, h,
                      Json.isStr, ht, pagination_stop_str]
    | null => rfl
    | bool b => rfl
    | num n => rfl
    | str s => rfl
    | arr l => rfl
  · rfl

/- ## Claims C2 and C6 -/

/-- C2: when the first response is 401 and the refresh call succeeds (2xx
with a truthy access token a), authenticated_request issues exactly two HTTP
requests — the second identical to the first in method, url, params, form
data, JSON body and all headers except Authorization, which carries the new
bearer token — performs exactly one refresh, and when the second attempt also
returns 401 the operation fails with HttpError 401 (still with exactly one
refresh). -/
theorem C2_executor_retry (env : AuthEnv) (rp : ReqParts)
    (headers0 : List (String × String)) (access refresh a : String)
    (h1 : (env.send 0).status = 401) (h2 : refresh ≠ "")
    (h3 : raise_for_status env.refreshStatus = false)
    (h4 : alist_get env.refreshBody "access_token" = some (Json.str a))
    (h5 : a ≠ "") :
    (authenticated_request env rp headers0 access refresh).requests =
      [⟨rp, alist_set headers0 "Authorization" ("Bearer " ++ access)⟩,
       ⟨rp, alist_set (alist_set headers0 "Authorization" ("Bearer " ++ access))
          "Authorization" ("Bearer " ++ a)⟩] ∧
    alist_get (alist_set (alist_set headers0 "Authorization" ("Bearer " ++ access))
        "Authorization" ("Bearer " ++ a)) "Authorization" = some ("Bearer " ++ a) ∧
    (authenticated_request env rp headers0 access refresh).refreshCalls = 1 ∧
    ((env.send 1).status = 401 →
      (authenticated_request env rp headers0 access refresh).result =
        Except.error (AuthError.httpError 401)) := by
  have hb2 : (refresh == "") = false := by
    cases hx : (refresh == "") with
    | true => exact absurd (eq_of_beq hx) h2
    | false => rfl
  have hb5 : (a == "") = false := by
    cases hx : (a == "") with
    | true => exact absurd (eq_of_beq hx) h5
    | false => rfl
  have hacc : alist_getD env.refreshBody "access_token" (Json.str "") = Json.str a := by
    simp [alist_getD, h4]
  refine ⟨?_, alist_get_set_same _ _ _, ?_, ?_⟩
  · simp [authenticated_request, h1, hb2, refresh_access_token, h3, hacc, truthy, hb5, pyStr]
    split <;> rfl
  · simp [authenticated_request, h1, hb2, refresh_access_token, h3, hacc, truthy, hb5, pyStr]
    split <;> rfl
  · intro h6
    have h7 : raise_for_status 401 = true := rfl
    simp [authenticated_request, h1, hb2, refresh_access_token, h3, hacc, truthy, hb5, pyStr,
      h6, h7]

/-- The concrete environment of the C2 witness: both attempts answer 401, the
refresh succeeds with a new token pair. -/
def c2w_env : AuthEnv :=
  ⟨fun _ => ⟨401, Json.null⟩, 200,
   [("access_token", Json.str "na"), ("refresh_token", Json.str "nr")]⟩

def c2w_parts : ReqParts := ⟨"GET", "https://api/x", [], [], none⟩

/-- Witness for C2: at the concrete double-401 environment the trace shows
two requests (the second with the fresh bearer header), one refresh, and the
HttpError 401 outcome. -/
theorem C2_executor_retry_witness :
    (authenticated_request c2w_env c2w_parts [] "old" "r0").requests =
      [⟨c2w_parts, alist_set [] "Authorization" ("Bearer " ++ "old")⟩,
       ⟨c2w_parts, alist_set (alist_set [] "Authorization" ("Bearer " ++ "old"))
          "Authorization" ("Bearer " ++ "na")⟩] ∧
    (authenticated_request c2w_env c2w_parts [] "old" "r0").refreshCalls = 1 ∧
    (authenticated_request c2w_env c2w_parts [] "old" "r0").result =
      Except.error (AuthError.httpError 401) := by
  have h := C2_executor_retry c2w_env c2w_parts [] "old" "r0" "na" rfl (by decide) rfl rfl
    (by decide)
  exact ⟨h.1, h.2.2.1, h.2.2.2 rfl⟩

/-- C6 counterexample: the refresh endpoint answers status 304 (not a 2xx)
with a body carrying both tokens.  raise_for_status flags only 4xx/5xx, so
the source accepts the refresh and the request succeeds, where the claim
demands failure with RefreshFailed for every non-2xx refresh response. -/
def c6ce_env : AuthEnv :=
  ⟨fun n => if n == 0 then ⟨401, Json.null⟩ else ⟨200, Json.null⟩, 304,
   [("access_token", Json.str "na"), ("refresh_token", Json.str "nr")]⟩

theorem C6_counterexample :
    (authenticated_request c6ce_env c2w_parts [] "old" "r0").result =
      Except.ok (⟨200, Json.null⟩, Json.str "na", Json.str "nr") ∧
    ¬ (200 ≤ 304 ∧ 304 < 300) :=
  ⟨rfl, by decide⟩

/-- C6 (amended): on a 401 first response with a refresh token available, the
refresh outcome is processed as follows — a 4xx/5xx refresh response
(raise_for_status) aborts with the refresh-failed SystemExit; a refresh body
without a truthy access token aborts with the no-access-token SystemExit; and
on an accepted refresh response with access token a, the returned pair holds
a and the body value of refresh_token when that key is present, falling back
to the old refresh token exactly when the key is absent. -/
theorem C6_refresh_amended (env : AuthEnv) (rp : ReqParts)
    (headers0 : List (String × String)) (access refresh a : String) (rv : Json)
    (h1 : (env.send 0).status = 401) (h2 : refresh ≠ "") :
    (raise_for_status env.refreshStatus = true →
      (authenticated_request env rp headers0 access refresh).result =
        Except.error (AuthError.exitRefreshFailed env.refreshStatus)) ∧
    (raise_for_status env.refreshStatus = false →
      truthy (alist_getD env.refreshBody "access_token" (Json.str "")) = false →
      (authenticated_request env rp headers0 access refresh).result =
        Except.error AuthError.exitNoAccessToken) ∧
    (raise_for_status env.refreshStatus = false →
      alist_get env.refreshBody "access_token" = some (Json.str a) → a ≠ "" →
      raise_for_status (env.send 1).status = false →
      alist_get env.refreshBody "refresh_token" = some rv →
      (authenticated_request env rp headers0 access refresh).result =
        Except.ok (env.send 1, Json.str a, rv)) ∧
    (raise_for_status env.refreshStatus = false →
      alist_get env.refreshBody "access_token" = some (Json.str a) → a ≠ "" →
      raise_for_status (env.send 1).status = false →
      alist_get env.refreshBody "refresh_token" = none →
      (authenticated_request env rp headers0 access refresh).result =
        Except.ok (env.send 1, Json.str a, Json.str refresh)) := by
  have hb2 : (refresh == "") = false := by
    cases hx : (refresh == "") with
    | true => exact absurd (eq_of_beq hx) h2
    | false => rfl
  refine ⟨?_, ?_, ?_, ?_⟩
  · intro h3
    simp [authenticated_request, h1, hb2, refresh_access_token, h3]
  · intro h3 h4
    simp [authenticated_request, h1, hb2, refresh_access_token, h3, h4]
  · intro h3 h4 h5 h6 h7
    have hb5 : (a == "") = false := by
      cases hx : (a == "") with
      | true => exact absurd (eq_of_beq hx) h5
      | false => rfl
    have hacc : alist_getD env.refreshBody "access_token" (Json.str "") = Json.str a := by
      simp [alist_getD, h4]
    have hrv : alist_getD env.refreshBody "refresh_token" (Json.str refresh) = rv := by
      simp [alist_getD, h7]
    simp [authenticated_request, h1, hb2, refresh_access_token, h3, hacc, hrv, truthy,
      hb5, h6]
  · intro h3 h4 h5 h6 h7
    have hb5 : (a == "") = false := by
      cases hx : (a == "") with
      | true => exact absurd (eq_of_beq hx) h5
      | false => rfl
    have hacc : alist_getD env.refreshBody "access_token" (Json.str "") = Json.str a := by
      simp [alist_getD, h4]
    have hrv : alist_getD env.refreshBody "refresh_token" (Json.str refresh) =
        Json.str refresh := by
      simp [alist_getD, h7]
    simp [authenticated_request, h1, hb2, refresh_access_token, h3, hacc, hrv, truthy,
      hb5, h6]

/-- The concrete environment of the C6 witness: 401 then 200, refresh 200
with an access token only, exercising the old-refresh-token fallback. -/
def c6w_env : AuthEnv :=
  ⟨fun n => if n == 0 then ⟨401, Json.null⟩ else ⟨200, Json.obj [("ok", Json.bool true)]⟩,
   200, [("access_token", Json.str "na")]⟩

/-- Witness for the amended C6 at a refresh body that omits refresh_token:
the returned pair holds the new access token and falls back to the old
refresh token. -/
theorem C6_refresh_amended_witness :
    (authenticated_request c6w_env c2w_parts [] "old" "oldRefresh").result =
      Except.ok (⟨200, Json.obj [("ok", Json.bool true)]⟩, Json.str "na",
        Json.str "oldRefresh") := by
  have h := C6_refresh_amended c6w_env c2w_parts [] "old" "oldRefresh" "na" Json.null
    rfl (by decide)
  exact h.2.2.2 rfl rfl (by decide) rfl rfl

/- ## Claims C8 and C10 -/

theorem alist_getD_set_same {α : Type} (l : List (String × α)) (k : String) (v d : α) :
    alist_getD (alist_set l k v) k d = v := by
  simp [alist_getD, alist_get_set_same]

/-- C8: for a valid device id, reading the band tokens right after a
successful save returns exactly the saved pair (with the store state
untouched by the read); for an out-of-range device id both operations fail
with the range ValueError. -/
theorem C8_token_roundtrip (d : Int) (a r : String) (st st2 : Option Doc) :
    ((1 ≤ d ∧ d ≤ NUM_BANDS) → save_band_tokens d a r st = Except.ok st2 →
      get_band_tokens d st2 = Except.ok ((Json.str a, Json.str r), st2)) ∧
    (¬ (1 ≤ d ∧ d ≤ NUM_BANDS) →
      get_band_tokens d st = Except.error PyErr.valueError ∧
      save_band_tokens d a r st = Except.error PyErr.valueError) := by
  constructor
  · intro hd hsave
    have hd1 : decide (1 ≤ d) = true := by simp [hd.1]
    have hd2 : decide (d ≤ NUM_BANDS) = true := by simp [hd.2]
    unfold save_band_tokens at hsave
    rw [hd1, hd2] at hsave
    simp only [Bool.and_self, if_true] at hsave
    set secrets := (load_secrets st).1 with hsec
    set key := toString d with hkey
    set secrets2 := if contains_key secrets key then secrets
      else alist_set secrets key (Json.obj []) with hs2
    cases hm : alist_getD secrets2 key (Json.obj []) with
    | obj flds =>
        rw [hm] at hsave
        have hst2 : st2 = some (alist_set secrets2 key
            (Json.obj (alist_set (alist_set flds "access_token" (Json.str a))
              "refresh_token" (Json.str r)))) := by
          cases hsave; rfl
        subst hst2
        have hacc : alist_get (alist_set (alist_set flds "access_token" (Json.str a))
            "refresh_token" (Json.str r)) "access_token" = some (Json.str a) := by
          rw [alist_get_set_other _ _ _ _ (by decide), alist_get_set_same]
        have href : alist_get (alist_set (alist_set flds "access_token" (Json.str a))
            "refresh_token" (Json.str r)) "refresh_token" = some (Json.str r) := by
          rw [alist_get_set_same]
        unfold get_band_tokens
        rw [hd1, hd2]
        simp [load_secrets, contains_key_set_same, alist_getD_set_same, pyGetVal,
          hacc, href, py_or_str_empty]
    | null => rw [hm] at hsave; cases hsave
    | bool b => rw [hm] at hsave; cases hsave
    | num n => rw [hm] at hsave; cases hsave
    | str s => rw [hm] at hsave; cases hsave
    | arr l => rw [hm] at hsave; cases hsave
  · intro hd
    have : (decide (1 ≤ d) && decide (d ≤ NUM_BANDS)) = false := by
      rcases not_and_or.mp hd with h | h <;> simp [h]
    constructor
    · unfold get_band_tokens
      rw [this]
      rfl
    · unfold save_band_tokens
      rw [this]
      rfl

/-- The state written by the C8 witness save. -/
def c8_state : Option Doc :=
  match save_band_tokens 3 "x" "y" none with
  | Except.ok st => st
  | Except.error _ => none

/-- Witness for C8 at device 3 on a fresh store, and at the out-of-range
devices 0 and 11. -/
theorem C8_token_roundtrip_witness :
    save_band_tokens 3 "x" "y" none = Except.ok c8_state ∧
    get_band_tokens 3 c8_state = Except.ok ((Json.str "x", Json.str "y"), c8_state) ∧
    get_band_tokens 0 none = Except.error PyErr.valueError ∧
    save_band_tokens 11 "x" "y" none = Except.error PyErr.valueError :=
  ⟨rfl,
   (C8_token_roundtrip 3 "x" "y" none c8_state).1 (by decide) rfl,
   ((C8_token_roundtrip 0 "x" "y" none none).2 (by decide)).1,
   ((C8_token_roundtrip 11 "x" "y" none none).2 (by decide)).2⟩

/-- C10: a successful save_band_tokens for device d rewrites only device d's
record: every other top-level key of the written document (client_id,
client_secret, every other band) maps to exactly the value it was loaded
with, and inside device d's record every field other than access_token and
refresh_token is preserved from the loaded record (none when the record was
freshly created). -/
theorem C10_save_frame (d : Int) (a r : String) (st : Option Doc) (doc2 : Doc)
    (h1 : 1 ≤ d) (h2 : d ≤ NUM_BANDS)
    (h3 : save_band_tokens d a r st = Except.ok (some doc2)) :
    (∀ k, k ≠ toString d → alist_get doc2 k = alist_get (load_secrets st).1 k) ∧
    (match alist_get doc2 (toString d) with
     | some (Json.obj flds2) =>
         ∀ f, f ≠ "access_token" → f ≠ "refresh_token" →
           alist_get flds2 f =
             (match alist_get (load_secrets st).1 (toString d) with
              | some (Json.obj flds) => alist_get flds f
              | _ => none)
     | _ => False) := by
  have hd1 : decide (1 ≤ d) = true := by simp [h1]
  have hd2 : decide (d ≤ NUM_BANDS) = true := by simp [h2]
  unfold save_band_tokens at h3
  rw [hd1, hd2] at h3
  simp only [Bool.and_self, if_true] at h3
  set secrets := (load_secrets st).1 with hsec
  set key := toString d with hkey
  cases hck : contains_key secrets key with
  | true =>
      rw [hck] at h3
      simp only [if_true] at h3
      have hgs : ∃ flds, alist_get secrets key = some (Json.obj flds) := by
        cases hg : alist_get secrets key with
        | none => simp [contains_key, hg] at hck
        | some v =>
            cases v with
            | obj flds => exact ⟨flds, rfl⟩
            | null => simp [alist_getD, hg] at h3
            | bool b => simp [alist_getD, hg] at h3
            | num n => simp [alist_getD, hg] at h3
            | str s => simp [alist_getD, hg] at h3
            | arr l => simp [alist_getD, hg] at h3
      obtain ⟨flds, hg⟩ := hgs
      rw [show alist_getD secrets key (Json.obj []) = Json.obj flds from by
        simp [alist_getD, hg]] at h3
      have hdoc2 : doc2 = alist_set secrets key
          (Json.obj (alist_set (alist_set flds "access_token" (Json.str a))
            "refresh_token" (Json.str r))) := by
        cases h3; rfl
      subst hdoc2
      constructor
      · intro k hk
        exact alist_get_set_other _ _ _ _ hk
      · rw [alist_get_set_same, hg]
        intro f hf1 hf2
        rw [alist_get_set_other _ _ _ _ hf2, alist_get_set_other _ _ _ _ hf1]
  | false =>
      rw [hck] at h3
      simp only [Bool.false_eq_true, if_false] at h3
      rw [alist_getD_set_same] at h3
      have hdoc2 : doc2 = alist_set (alist_set secrets key (Json.obj [])) key
          (Json.obj (alist_set (alist_set [] "access_token" (Json.str a))
            "refresh_token" (Json.str r))) := by
        cases h3; rfl
      subst hdoc2
      have hgnone : alist_get secrets key = none := by
        cases hg : alist_get secrets key with
        | none => rfl
        | some v => simp [contains_key, hg] at hck
      constructor
      · intro k hk
        rw [alist_get_set_other _ _ _ _ hk, alist_get_set_other _ _ _ _ hk]
      · rw [alist_get_set_same, hgnone]
        intro f hf1 hf2
        rw [alist_get_set_other _ _ _ _ hf2, alist_get_set_other _ _ _ _ hf1]
        rfl

/- ## Claim C9 -/

theorem truthy_py_or_empty (v : Json) :
    truthy (py_or v (Json.str "")) = truthy v := by
  unfold py_or
  cases ht : truthy v with
  | true => simpa using ht
  | false => simp [truthy]

theorem load_secrets_snd (st : Option Doc) :
    (load_secrets (load_secrets st).2).1 = (load_secrets st).1 := by
  cases st <;> rfl

theorem band_unauth_set_empty (secrets : Doc) (k key : String)
    (h : band_unauth secrets k = true) :
    band_unauth (alist_set secrets key
      (Json.obj [("access_token", Json.str ""), ("refresh_token", Json.str "")])) k = true := by
  by_cases hk : k = key
  · subst hk
    unfold band_unauth
    rw [alist_get_set_same]
    simp [pyGetVal, alist_get, truthy]
  · unfold band_unauth at h ⊢
    rw [alist_get_set_other _ _ _ _ hk]
    exact h

/-- Reading the tokens of an unauthenticated band: the call succeeds, at
least one returned token is falsy, and every band that was unauthenticated in
the loaded document remains so in the (possibly healed) written document. -/
theorem get_band_tokens_unauth (b : Int) (st : Option Doc)
    (hb1 : 1 ≤ b) (hb2 : b ≤ NUM_BANDS)
    (hu : band_unauth (load_secrets st).1 (toString b) = true) :
    ∃ (tk : Json × Json) (st2 : Option Doc),
      get_band_tokens b st = Except.ok (tk, st2) ∧
      (!truthy tk.1 || !truthy tk.2) = true ∧
      (∀ k, band_unauth (load_secrets st).1 k = true →
        band_unauth (load_secrets st2).1 k = true) := by
  have hd1 : decide (1 ≤ b) = true := by simp [hb1]
  have hd2 : decide (b ≤ NUM_BANDS) = true := by simp [hb2]
  unfold get_band_tokens
  rw [hd1, hd2]
  simp only [Bool.and_self, if_true]
  set secrets := (load_secrets st).1 with hsec
  set key := toString b with hkey
  cases hck : contains_key secrets key with
  | true =>
      simp only [hck, if_true]
      cases hg : alist_get secrets key with
      | none => simp [contains_key, hg] at hck
      | some v =>
          cases v with
          | obj flds =>
              rw [show alist_getD secrets key (Json.obj []) = Json.obj flds from by
                simp [alist_getD, hg]]
              refine ⟨_, _, rfl, ?_, ?_⟩
              · unfold band_unauth at hu
                rw [hg] at hu
                simpa [truthy_py_or_empty] using hu
              · intro k hk
                rw [load_secrets_snd]
                exact hk
          | null => unfold band_unauth at hu; rw [hg] at hu; simp at hu
          | bool bb => unfold band_unauth at hu; rw [hg] at hu; simp at hu
          | num n => unfold band_unauth at hu; rw [hg] at hu; simp at hu
          | str s => unfold band_unauth at hu; rw [hg] at hu; simp at hu
          | arr l => unfold band_unauth at hu; rw [hg] at hu; simp at hu
  | false =>
      simp only [hck, Bool.false_eq_true, if_false]
      rw [alist_getD_set_same]
      refine ⟨_, _, rfl, ?_, ?_⟩
      · simp [pyGetVal, alist_get, py_or, truthy]
      · intro k hk
        simp only [load_secrets]
        exact band_unauth_set_empty secrets k key hk

/-- The band loop on a list of unauthenticated bands: every band is reported
with all three endpoints failed, no fetch call is made (the counter is
unchanged), and the loop succeeds. -/
theorem compliance_loop_unauth (env : ComplianceEnv) (startD : String) :
    ∀ (bandsL : List Int) (st : Option Doc) (calls : Nat),
      (∀ b ∈ bandsL, 1 ≤ b ∧ b ≤ NUM_BANDS) →
      (∀ b ∈ bandsL, band_unauth (load_secrets st).1 (toString b) = true) →
      ∃ st2, compliance_bands_loop env startD bandsL st calls =
        Except.ok (bandsL.map (fun b => (toString b, ["sleep", "cycle", "recovery"])),
          st2, calls) := by
  intro bandsL
  induction bandsL with
  | nil => intro st calls _ _; exact ⟨st, rfl⟩
  | cons b rest ih =>
      intro st calls hr hu
      obtain ⟨tk, st1, hget, htk, hpres⟩ :=
        get_band_tokens_unauth b st (hr b (List.mem_cons_self b rest)).1
          (hr b (List.mem_cons_self b rest)).2 (hu b (List.mem_cons_self b rest))
      obtain ⟨st2, hrest⟩ := ih st1 calls
        (fun x hx => hr x (List.mem_cons_of_mem _ hx))
        (fun x hx => hpres _ (hu x (List.mem_cons_of_mem _ hx)))
      refine ⟨st2, ?_⟩
      simp only [compliance_bands_loop, hget, htk, if_true, hrest, List.map]

/-- Whether the compliance check completed without raising. -/
def compliance_is_ok (r : Except PyErr (List (String × List String) × Option Doc × Nat)) :
    Bool :=
  match r with
  | Except.ok _ => true
  | Except.error _ => false

/-- The failures mapping of a completed compliance check. -/
def compliance_failures
    (r : Except PyErr (List (String × List String) × Option Doc × Nat)) :
    List (String × List String) :=
  match r with
  | Except.ok x => x.1
  | Except.error _ => []

/-- The number of data_fetcher calls of a completed compliance check. -/
def compliance_calls
    (r : Except PyErr (List (String × List String) × Option Doc × Nat)) : Nat :=
  match r with
  | Except.ok x => x.2.2
  | Except.error _ => 1

/-- C9: for a valid date, truthy client credentials, and a store in which
every band 1..10 has an absent or falsy access or refresh token,
run_daily_compliance_check completes without raising, reports every one of
the 10 device ids with all three checked endpoints ["sleep", "cycle",
"recovery"] failed, and issues zero data_fetcher (network) calls. -/
theorem C9_unauthenticated_compliance (env : ComplianceEnv) (dateStr : String)
    (st : Option Doc)
    (h1 : validate_date_format dateStr = true)
    (h2 : truthy (get_client_credentials st).1.1 = true)
    (h3 : truthy (get_client_credentials st).1.2 = true)
    (h4 : ∀ b ∈ band_ids, band_unauth (load_secrets st).1 (toString b) = true) :
    compliance_is_ok (run_daily_compliance_check env dateStr st) = true ∧
    compliance_failures (run_daily_compliance_check env dateStr st) =
      band_ids.map (fun b => (toString b, ["sleep", "cycle", "recovery"])) ∧
    compliance_calls (run_daily_compliance_check env dateStr st) = 0 := by
  have hu2 : ∀ b ∈ band_ids,
      band_unauth (load_secrets (get_client_credentials st).2).1 (toString b) = true := by
    intro b hb
    have : (get_client_credentials st).2 = (load_secrets st).2 := rfl
    rw [this, load_secrets_snd]
    exact h4 b hb
  obtain ⟨st2, hloop⟩ := compliance_loop_unauth env (dateStr ++ "T00:00:00.000Z")
    band_ids (get_client_credentials st).2 0 (by decide) hu2
  have hrun : run_daily_compliance_check env dateStr st =
      Except.ok (band_ids.map (fun b => (toString b, ["sleep", "cycle", "recovery"])),
        st2, 0) := by
    unfold run_daily_compliance_check
    rw [h1]
    simp only [Bool.true_eq_false, if_false, h2, h3, Bool.not_true, Bool.or_self,
      Bool.false_eq_true, if_false]
    exact hloop
  rw [hrun]
  exact ⟨rfl, rfl, rfl⟩

/-- The concrete store of the C9 witness: client credentials present, no band
records at all (every band reads as unauthenticated). -/
def c9w_doc : Doc := [("client_id", Json.str "cid"), ("client_secret", Json.str "cs")]

/-- The concrete oracle of the C9 witness (its answers must never be
consulted). -/
def c9w_env : ComplianceEnv := ⟨fun _ => FetchOutcome.exc⟩

/-- Witness for C9 at the spec example date with all 10 devices
unauthenticated: the mapping lists every device with all three endpoints, and
zero network calls are made. -/
theorem C9_unauthenticated_compliance_witness :
    compliance_is_ok (run_daily_compliance_check c9w_env "2024-01-15" (some c9w_doc)) =
      true ∧
    compliance_failures (run_daily_compliance_check c9w_env "2024-01-15" (some c9w_doc)) =
      [("1", ["sleep", "cycle", "recovery"]), ("2", ["sleep", "cycle", "recovery"]),
       ("3", ["sleep", "cycle", "recovery"]), ("4", ["sleep", "cycle", "recovery"]),
       ("5", ["sleep", "cycle", "recovery"]), ("6", ["sleep", "cycle", "recovery"]),
       ("7", ["sleep", "cycle", "recovery"]), ("8", ["sleep", "cycle", "recovery"]),
       ("9", ["sleep", "cycle", "recovery"]), ("10", ["sleep", "cycle", "recovery"])] ∧
    compliance_calls (run_daily_compliance_check c9w_env "2024-01-15" (some c9w_doc)) =
      0 := by
  have h := C9_unauthenticated_compliance c9w_env "2024-01-15" (some c9w_doc)
    rfl rfl rfl (by decide)
  exact ⟨h.1, h.2.1.trans (by rfl), h.2.2⟩

/-- The pre-save document of the C10 witness: client credentials, a band 3
record with an extra field, and a band 5 record. -/
def c10_before : Doc :=
  [("client_id", Json.str "cid"), ("client_secret", Json.str "cs"),
   ("3", Json.obj [("access_token", Json.str "oldA"), ("refresh_token", Json.str "oldR"),
      ("extra", Json.num 7)]),
   ("5", Json.obj [("access_token", Json.str "a5")])]

/-- The document written by the C10 witness save. -/
def c10_after : Doc :=
  [("client_id", Json.str "cid"), ("client_secret", Json.str "cs"),
   ("3", Json.obj [("access_token", Json.str "a"), ("refresh_token", Json.str "r"),
      ("extra", Json.num 7)]),
   ("5", Json.obj [("access_token", Json.str "a5")])]

/-- Witness for C10: saving band 3 leaves client_id and the band 5 record
exactly as loaded, and preserves the extra field inside band 3. -/
theorem C10_save_frame_witness :
    alist_get c10_after "client_id" = alist_get c10_before "client_id" ∧
    alist_get c10_after "5" = alist_get c10_before "5" := by
  have h := C10_save_frame 3 "a" "r" (some c10_before) c10_after (by decide) (by decide) rfl
  exact ⟨h.1 "client_id" (by decide), h.1 "5" (by decide)⟩
